import Mathlib

/-
Verification of the customer engagement scoring and segmentation engine.

The development shallowly embeds the two scoring call sites of the repository:
`customer_engagement_report.py` (class `CustomerEngagementReport`, embedded in
namespace `Report`) and `customer_engagement_analyzer.py` (class
`CustomerEngagementAnalyzer`, embedded in namespace `Analyzer`).

Modelling conventions:
 - Dates (Python `datetime`) are integers counting days; `timedelta.days` on a
   difference of two such dates is exact integer subtraction.  The implicit
   `datetime.now()` of the Python code is an explicit `now : ℤ` parameter.
 - Money (`Decimal`) and float arithmetic are modelled as exact rationals `ℚ`
   (float literals such as `1.5`, `1.2`, `0.8`, `0.2` become the rationals
   `3/2`, `6/5`, `4/5`, `1/5`).
 - The float NaN sentinel returned by `_calculate_payment_frequency` for
   histories with fewer than two payments is modelled as `Option.none`; an
   ordinary float value `x` is `some x`.  Every Python comparison against a
   possibly-NaN value is false when the value is NaN, which the embedding
   reproduces by matching on the option.
 - Python `sorted(payments, key=lambda x: x['date'])` is a stable sort by
   date, modelled with `List.mergeSort` (also stable).
-/

/-- One payment event: entry of a customer's `payment_history`
(a `{date, amount, method}` dict built in `_process_payment`). -/
structure Payment where
  date : ℤ
  amount : ℚ
  method : String
deriving DecidableEq

namespace Report

/-- Python `sorted(payments, key=lambda x: x['date'])`. -/
def sortPayments (l : List Payment) : List Payment :=
  l.mergeSort (fun a b => decide (a.date ≤ b.date))

/-- Embedding of `_calculate_payment_frequency`: the mean of the consecutive
day gaps, or the NaN sentinel (`none`) when there are fewer than 2 payments. -/
def calculate_payment_frequency (payments : List Payment) : Option ℚ :=
  if 1 < payments.length then
    let time_diffs : List ℤ := List.zipWith (fun a b => b.date - a.date) payments payments.tail
    some ((time_diffs.sum : ℚ) / (time_diffs.length : ℚ))
  else
    none

/-- Frequency block of `_calculate_engagement_score` (transaction-count band, 0-3). -/
def frequency_score (transaction_count : ℕ) : ℕ :=
  if transaction_count ≥ 10 then 3
  else if transaction_count ≥ 5 then 2
  else if transaction_count ≥ 2 then 1
  else 0

/-- Monetary block of `_calculate_engagement_score` (total-spend band, 0-3). -/
def monetary_score (total_spend : ℚ) : ℕ :=
  if total_spend ≥ 5000 then 3
  else if total_spend ≥ 1000 then 2
  else if total_spend ≥ 500 then 1
  else 0

/-- Recency block of `_calculate_engagement_score` (days-since-last band, 0-2). -/
def recency_score (days_since_last : ℤ) : ℕ :=
  if days_since_last ≤ 30 then 2
  else if days_since_last ≤ 90 then 1
  else 0

/-- Payment-regularity block of `_calculate_engagement_score` (0-2).  A NaN
frequency (`none`) fails the `payment_frequency > 0` guard, contributing 0. -/
def regularity_band (payment_frequency : Option ℚ) : ℕ :=
  match payment_frequency with
  | some f => if f > 0 then (if f ≤ 45 then 2 else if f ≤ 90 then 1 else 0) else 0
  | none => 0

/-- Embedding of `_calculate_engagement_score` of `customer_engagement_report.py`
(the 3+3+2+2 band combination). -/
def calculate_engagement_score (transaction_count : ℕ) (total_spend : ℚ)
    (days_since_last : ℤ) (payment_frequency : Option ℚ) : ℕ :=
  frequency_score transaction_count + monetary_score total_spend
    + recency_score days_since_last + regularity_band payment_frequency

/-- Embedding of `_predict_next_payment`.  Returns
`(payment_status, predicted_next_payment, days_until_next)`.  The guard
`pd.isna(payment_frequency) or not last_payment_date` is the wildcard case. -/
def predict_next_payment (now : ℤ) (last_payment_date : Option ℤ)
    (payment_frequency : Option ℚ) (days_since_last : ℤ) : String × Option ℚ × ℤ :=
  match payment_frequency, last_payment_date with
  | some f, some last_date =>
    let predicted_date : ℚ := (last_date : ℚ) + f
    let days_until_next : ℤ := ⌊predicted_date - (now : ℚ)⌋
    let status : String :=
      if (days_since_last : ℚ) > f * 2 then "at_risk"
      else if (days_since_last : ℚ) > f * (3/2) then "overdue"
      else "on_track"
    (status, some predicted_date, days_until_next)
  | _, _ => ("unknown", none, 0)

/-- Embedding of `_analyze_historical_engagement`.  The dormant test
`days_since_last > payment_frequency * 3` is false when the frequency is NaN;
the declining/consistent tests run only when both half frequencies are
non-NaN, otherwise the function falls through to "irregular". -/
def analyze_historical_engagement (payments : List Payment)
    (payment_frequency : Option ℚ) (days_since_last : ℤ) : String :=
  if payments.length < 2 then "new"
  else
    let mid_point := payments.length / 2
    let first_half_freq := calculate_payment_frequency (payments.take mid_point)
    let second_half_freq := calculate_payment_frequency (payments.drop mid_point)
    if (match payment_frequency with
        | some f => decide ((days_since_last : ℚ) > f * 3)
        | none => false) then "dormant"
    else
      match first_half_freq, second_half_freq with
      | some fhf, some shf =>
        if shf > fhf * (3/2) then "declining"
        else if |shf - fhf| ≤ fhf * (1/5) then "consistent"
        else "irregular"
      | _, _ => "irregular"

/-- Embedding of `_calculate_spending_trend`. -/
def calculate_spending_trend (payments : List Payment) : String :=
  if payments.length < 3 then "insufficient_data"
  else
    let sorted_payments := sortPayments payments
    let recent_payments := sorted_payments.drop (sorted_payments.length - 3)
    let older_payments := sorted_payments.take (sorted_payments.length - 3)
    let recent_avg : ℚ := (recent_payments.map Payment.amount).sum / (recent_payments.length : ℚ)
    let older_avg : ℚ :=
      if older_payments.length = 0 then recent_avg
      else (older_payments.map Payment.amount).sum / (older_payments.length : ℚ)
    if recent_avg > older_avg * (6/5) then "increasing"
    else if recent_avg < older_avg * (4/5) then "decreasing"
    else "stable"

/-- Embedding of `_determine_engagement_status`. -/
def determine_engagement_status (score : ℕ) (days_since_last : ℤ)
    (historical_engagement : String) : String :=
  if historical_engagement = "dormant" ∧ score ≥ 5 then "potential_reengagement"
  else if score ≥ 7 then "active"
  else if score ≥ 4 ∧ days_since_last ≤ 180 then "active"
  else if historical_engagement = "declining" ∨ historical_engagement = "dormant" then "disengaged"
  else "inactive"

/-- Embedding of `_assess_risk_level`. -/
def assess_risk_level (score : ℕ) (total_spend : ℚ) (days_since_last : ℤ) : String :=
  if score ≥ 7 then "low"
  else if total_spend ≥ 5000 then
    (if days_since_last > 90 then "high" else "medium")
  else if days_since_last > 180 then "high"
  else if days_since_last > 90 then "medium"
  else "low"

/-- Embedding of the `CustomerEngagement` dataclass with its field defaults.
The Python default `payment_frequency_days: float = 0` is the number zero,
`some 0`, distinct from the NaN sentinel `none`.  The engagement score of the
Python code is an integer-valued float, modelled as `ℕ`. -/
structure CustomerEngagement where
  customer_id : String
  email : String := ""
  name : String := ""
  total_spend : ℚ := 0
  transaction_count : ℕ := 0
  last_payment_amount : ℚ := 0
  last_payment_date : Option ℤ := none
  last_payment_method : String := ""
  payment_history : List Payment := []
  avg_payment_amount : ℚ := 0
  payment_frequency_days : Option ℚ := some 0
  spending_trend : String := "stable"
  engagement_status : String := "active"
  engagement_score : ℕ := 0
  days_since_last_payment : ℤ := 0
  risk_level : String := "low"
  predicted_next_payment : Option ℚ := none
  payment_status : String := "on_track"
  historical_engagement : String := "new"
  days_until_next_payment : ℤ := 0
  payment_regularity_score : ℚ := 0
deriving DecidableEq

/-- Embedding of `_analyze_customer_engagement`, the per-customer pipeline.
An empty history takes the `if not payments` early return, a dataclass with
only the identity fields set (every other field keeps its default).  The
`payment_regularity_score` computation (`_calculate_payment_regularity`) needs
a real square root (`statistics.stdev`) and no claim refers to it, so the
field is left at its dataclass default here. -/
def analyze_customer_engagement (now : ℤ) (customer_id email name : String)
    (raw_payments : List Payment) : CustomerEngagement :=
  let payments := sortPayments raw_payments
  match payments.getLast? with
  | none =>
    { customer_id := customer_id, email := email, name := name }
  | some last_payment =>
    let total_spend : ℚ := (payments.map Payment.amount).sum
    let avg_amount : ℚ := total_spend / (payments.length : ℚ)
    let days_since_last : ℤ := now - last_payment.date
    let payment_frequency := calculate_payment_frequency payments
    let pred := predict_next_payment now (some last_payment.date) payment_frequency days_since_last
    let historical_engagement := analyze_historical_engagement payments payment_frequency days_since_last
    let spending_trend := calculate_spending_trend payments
    let engagement_score := calculate_engagement_score payments.length total_spend days_since_last payment_frequency
    let engagement_status := determine_engagement_status engagement_score days_since_last historical_engagement
    let risk_level := assess_risk_level engagement_score total_spend days_since_last
    { customer_id := customer_id
      email := email
      name := name
      total_spend := total_spend
      transaction_count := payments.length
      last_payment_amount := last_payment.amount
      last_payment_date := some last_payment.date
      last_payment_method := last_payment.method
      payment_history := payments
      avg_payment_amount := avg_amount
      payment_frequency_days := payment_frequency
      spending_trend := spending_trend
      engagement_status := engagement_status
      engagement_score := engagement_score
      days_since_last_payment := days_since_last
      risk_level := risk_level
      predicted_next_payment := pred.2.1
      payment_status := pred.1
      historical_engagement := historical_engagement
      days_until_next_payment := pred.2.2
      payment_regularity_score := 0 }

end Report

namespace Analyzer

/-- One row of the `CUSTOMER DETAILS` dataframe loaded by `load_data`. -/
structure CsvRow where
  customer_id : String
  email : String
  name : String
  total_spend : ℚ
  transaction_count : ℕ
  last_payment_date : ℤ
deriving DecidableEq

/-- Monetary block of the analyzer's `_calculate_engagement_score`
(the 4-tier spend band, 0-4, gated below by `min_spend_threshold`). -/
def monetary_score (min_spend_threshold total_spend : ℚ) : ℕ :=
  if total_spend ≥ 5000 then 4
  else if total_spend ≥ 1000 then 3
  else if total_spend ≥ 500 then 2
  else if total_spend ≥ min_spend_threshold then 1
  else 0

/-- Embedding of `_calculate_engagement_score` of
`customer_engagement_analyzer.py` (the 3+4+3 band combination). -/
def calculate_engagement_score (min_spend_threshold : ℚ) (transaction_count : ℕ)
    (total_spend : ℚ) (last_payment_date current_date : ℤ) : ℕ :=
  let days_since_last_payment := current_date - last_payment_date
  (if transaction_count ≥ 10 then 3
   else if transaction_count ≥ 5 then 2
   else if transaction_count ≥ 2 then 1
   else 0)
  + monetary_score min_spend_threshold total_spend
  + (if days_since_last_payment ≤ 30 then 3
     else if days_since_last_payment ≤ 60 then 2
     else if days_since_last_payment ≤ 90 then 1
     else 0)

/-- Configuration of `CustomerEngagementAnalyzer.__init__`. -/
structure Config where
  recent_window_months : ℕ
  historical_window_months : ℕ
  min_spend_threshold : ℚ

/-- Recent-activity cutoff of `analyze_engagement`:
`current_date - timedelta(days=recent_window_months * 30)`. -/
def recent_cutoff (cfg : Config) (current_date : ℤ) : ℤ :=
  current_date - cfg.recent_window_months * 30

/-- Historical cutoff of `analyze_engagement`:
`current_date - timedelta(days=(recent + historical) * 30)`. -/
def historical_cutoff (cfg : Config) (current_date : ℤ) : ℤ :=
  current_date - (cfg.recent_window_months + cfg.historical_window_months) * 30

/-- The per-row engagement score column added by `analyze_engagement`. -/
def engagement_score_row (cfg : Config) (current_date : ℤ) (row : CsvRow) : ℕ :=
  calculate_engagement_score cfg.min_spend_threshold row.transaction_count
    row.total_spend row.last_payment_date current_date

/-- The `recent_customers` dataframe filter of `analyze_engagement`:
high engagement score OR recent activity with significant spend. -/
def recent_customers (cfg : Config) (df : List CsvRow) (current_date : ℤ) : List CsvRow :=
  df.filter (fun row => decide (engagement_score_row cfg current_date row ≥ 7
    ∨ (row.last_payment_date ≥ recent_cutoff cfg current_date
       ∧ row.total_spend ≥ cfg.min_spend_threshold * 2)))

/-- The `historical_customers` dataframe filter of `analyze_engagement`. -/
def historical_customers (cfg : Config) (df : List CsvRow) (current_date : ℤ) : List CsvRow :=
  df.filter (fun row => decide (row.last_payment_date < recent_cutoff cfg current_date
    ∧ row.last_payment_date ≥ historical_cutoff cfg current_date
    ∧ row.total_spend ≥ cfg.min_spend_threshold))

/-- The `disengaged_customers` set of `analyze_engagement`: historical rows
whose `customer_id` is not in (`isin`) the recent rows' `customer_id` column. -/
def disengaged_customers (cfg : Config) (df : List CsvRow) (current_date : ℤ) : List CsvRow :=
  (historical_customers cfg df current_date).filter
    (fun row => decide (¬ row.customer_id ∈ (recent_customers cfg df current_date).map CsvRow.customer_id))

end Analyzer

/-- Specification-side definition (spec section 4.2): the consecutive day-gaps
of a payment history. -/
def specGaps (l : List Payment) : List ℤ :=
  List.zipWith (fun a b => b.date - a.date) l l.tail

/-- Specification-side definition (spec section 4.2): the mean of the n-1
consecutive day-gaps. -/
def specGapsMean (l : List Payment) : ℚ :=
  ((specGaps l).sum : ℚ) / ((l.length - 1 : ℕ) : ℚ)

/-- Specification-side definition of the risk-level rule, transcribed from the
words of claim C4 / spec section 4.5. -/
def specRiskLevel (engagement_score : ℕ) (total_spend : ℚ) (days_since_last_payment : ℤ) : String :=
  if engagement_score ≥ 7 then "low"
  else if total_spend ≥ 5000 then
    (if days_since_last_payment > 90 then "high" else "medium")
  else if days_since_last_payment > 180 then "high"
  else if days_since_last_payment > 90 then "medium"
  else "low"

/-- Specification-side definition of the engagement-status cascade, transcribed
from the words of claim C6 / spec section 4.6 (first match wins). -/
def specEngagementStatus (engagement_score : ℕ) (days_since_last_payment : ℤ)
    (historical_engagement : String) : String :=
  if historical_engagement = "dormant" ∧ engagement_score ≥ 5 then "potential_reengagement"
  else if engagement_score ≥ 7 then "active"
  else if engagement_score ≥ 4 ∧ days_since_last_payment ≤ 180 then "active"
  else if historical_engagement = "declining" ∨ historical_engagement = "dormant" then "disengaged"
  else "inactive"

/-- Specification-side definition of the historical-engagement priority cascade,
transcribed from the words of claim C8 / spec section 4.3: dormant first, then
declining, then consistent (both tests only when both half-frequencies are
defined), otherwise irregular. -/
def specHistoricalEngagement (overall_frequency : ℚ)
    (first_half_freq second_half_freq : Option ℚ) (days_since_last_payment : ℤ) : String :=
  if (days_since_last_payment : ℚ) > 3 * overall_frequency then "dormant"
  else
    match first_half_freq, second_half_freq with
    | some fhf, some shf =>
      if shf > (3/2) * fhf then "declining"
      else if |shf - fhf| ≤ (1/5) * fhf then "consistent"
      else "irregular"
    | _, _ => "irregular"

namespace Report

lemma frequency_score_le (transaction_count : ℕ) : frequency_score transaction_count ≤ 3 := by
  unfold frequency_score; split_ifs <;> omega

lemma monetary_score_le (total_spend : ℚ) : monetary_score total_spend ≤ 3 := by
  unfold monetary_score; split_ifs <;> omega

lemma recency_score_le (days_since_last : ℤ) : recency_score days_since_last ≤ 2 := by
  unfold recency_score; split_ifs <;> omega

lemma regularity_band_le (payment_frequency : Option ℚ) : regularity_band payment_frequency ≤ 2 := by
  rcases payment_frequency with _ | f
  · simp [regularity_band]
  · simp only [regularity_band]
    split_ifs <;> omega

lemma calculate_engagement_score_le (transaction_count : ℕ) (total_spend : ℚ)
    (days_since_last : ℤ) (payment_frequency : Option ℚ) :
    calculate_engagement_score transaction_count total_spend days_since_last payment_frequency ≤ 10 := by
  have h1 := frequency_score_le transaction_count
  have h2 := monetary_score_le total_spend
  have h3 := recency_score_le days_since_last
  have h4 := regularity_band_le payment_frequency
  unfold calculate_engagement_score
  omega

/-- For a history with at least two payments, `_calculate_payment_frequency`
returns the mean of the n-1 consecutive day-gaps. -/
lemma calculate_payment_frequency_eq (l : List Payment) (h : 2 ≤ l.length) :
    calculate_payment_frequency l = some (specGapsMean l) := by
  unfold calculate_payment_frequency
  rw [if_pos (by omega)]
  have hlen : (List.zipWith (fun a b => b.date - a.date) l l.tail).length = l.length - 1 := by
    rw [List.length_zipWith, List.length_tail]
    omega
  simp only [specGapsMean, specGaps, hlen]

/-- A history with fewer than two payments has the NaN frequency sentinel. -/
lemma calculate_payment_frequency_none (l : List Payment) (h : l.length < 2) :
    calculate_payment_frequency l = none := by
  unfold calculate_payment_frequency
  rw [if_neg (by omega)]

lemma sortPayments_nil : sortPayments [] = [] := by
  unfold sortPayments; exact List.mergeSort_nil

lemma sortPayments_singleton (p : Payment) : sortPayments [p] = [p] := by
  unfold sortPayments; exact List.mergeSort_singleton p

lemma length_sortPayments (l : List Payment) : (sortPayments l).length = l.length := by
  unfold sortPayments; exact List.length_mergeSort l

lemma sortPayments_perm (l : List Payment) : (sortPayments l).Perm l :=
  List.mergeSort_perm l _

/-- The empty-history early return of `_analyze_customer_engagement`. -/
lemma analyze_customer_engagement_nil (now : ℤ) (cid email name : String) :
    analyze_customer_engagement now cid email name [] =
      { customer_id := cid, email := email, name := name } := by
  unfold analyze_customer_engagement
  rw [sortPayments_nil]
  rfl

/-- Projection of the pipeline's engagement score in the non-empty case. -/
lemma engagement_score_pipeline (now : ℤ) (cid email name : String) (raw : List Payment)
    (lp : Payment) (hl : (sortPayments raw).getLast? = some lp) :
    (analyze_customer_engagement now cid email name raw).engagement_score =
      calculate_engagement_score (sortPayments raw).length
        ((sortPayments raw).map Payment.amount).sum (now - lp.date)
        (calculate_payment_frequency (sortPayments raw)) := by
  unfold analyze_customer_engagement
  simp only [hl]

/-- Projection of the pipeline's total spend in the non-empty case. -/
lemma total_spend_pipeline (now : ℤ) (cid email name : String) (raw : List Payment)
    (lp : Payment) (hl : (sortPayments raw).getLast? = some lp) :
    (analyze_customer_engagement now cid email name raw).total_spend =
      ((sortPayments raw).map Payment.amount).sum := by
  unfold analyze_customer_engagement
  simp only [hl]

/-- Projection of the pipeline's payment frequency in the non-empty case. -/
lemma payment_frequency_pipeline (now : ℤ) (cid email name : String) (raw : List Payment)
    (lp : Payment) (hl : (sortPayments raw).getLast? = some lp) :
    (analyze_customer_engagement now cid email name raw).payment_frequency_days =
      calculate_payment_frequency (sortPayments raw) := by
  unfold analyze_customer_engagement
  simp only [hl]

end Report

namespace Report

lemma monetary_score_mono {s t : ℚ} (h : s ≤ t) : monetary_score s ≤ monetary_score t := by
  unfold monetary_score
  split_ifs <;> first | omega | linarith

lemma sum_sortPayments (l : List Payment) :
    ((sortPayments l).map Payment.amount).sum = (l.map Payment.amount).sum :=
  ((sortPayments_perm l).map Payment.amount).sum_eq

lemma exists_getLast_sort (l : List Payment) (h : l ≠ []) :
    ∃ lp, (sortPayments l).getLast? = some lp := by
  have hne : sortPayments l ≠ [] := by
    intro he
    apply h
    have hlen := length_sortPayments l
    rw [he] at hlen
    exact List.length_eq_zero.mp hlen.symm
  exact ⟨(sortPayments l).getLast hne, List.getLast?_eq_getLast _ hne⟩

end Report

namespace Analyzer

lemma analyzer_monetary_score_le (min_spend_threshold total_spend : ℚ) :
    monetary_score min_spend_threshold total_spend ≤ 4 := by
  unfold monetary_score
  split_ifs <;> omega

lemma analyzer_monetary_score_mono (min_spend_threshold : ℚ) {s t : ℚ} (h : s ≤ t) :
    monetary_score min_spend_threshold s ≤ monetary_score min_spend_threshold t := by
  unfold monetary_score
  split_ifs <;> first | omega | linarith

lemma analyzer_calculate_engagement_score_le (min_spend_threshold : ℚ) (transaction_count : ℕ)
    (total_spend : ℚ) (last_payment_date current_date : ℤ) :
    calculate_engagement_score min_spend_threshold transaction_count total_spend
      last_payment_date current_date ≤ 10 := by
  have hm := analyzer_monetary_score_le min_spend_threshold total_spend
  unfold calculate_engagement_score
  dsimp only
  split_ifs <;> omega

end Analyzer

/-- C1: for every customer profile produced by the pipeline, under either
documented band combination (the 3+4+3 variant in the analyzer or the 3+3+2+2
variant in the report scorer), the computed engagement score lies in the
closed interval [0, 10].  (The scores are naturals, so 0 is a lower bound by
construction; both variants and the full report pipeline stay at or below 10.) -/
theorem C1_engagement_score_bounded (transaction_count : ℕ) (total_spend : ℚ)
    (days_since_last : ℤ) (payment_frequency : Option ℚ) (min_spend_threshold : ℚ)
    (last_payment_date current_date now : ℤ) (cid email name : String)
    (raw : List Payment) :
    Report.calculate_engagement_score transaction_count total_spend days_since_last
        payment_frequency ≤ 10
    ∧ Analyzer.calculate_engagement_score min_spend_threshold transaction_count total_spend
        last_payment_date current_date ≤ 10
    ∧ (Report.analyze_customer_engagement now cid email name raw).engagement_score ≤ 10 := by
  refine ⟨Report.calculate_engagement_score_le _ _ _ _,
    Analyzer.analyzer_calculate_engagement_score_le _ _ _ _ _, ?_⟩
  rcases hl : (Report.sortPayments raw).getLast? with _ | lp
  · have hnil : raw = [] := by
      have hs := List.getLast?_eq_none_iff.mp hl
      have hlen := Report.length_sortPayments raw
      rw [hs] at hlen
      exact List.length_eq_zero.mp hlen.symm
    rw [hnil, Report.analyze_customer_engagement_nil]
    exact Nat.zero_le 10
  · rw [Report.engagement_score_pipeline now cid email name raw lp hl]
    exact Report.calculate_engagement_score_le _ _ _ _

/-- C4: risk_level is "low" whenever engagement_score >= 7, regardless of
total_spend or days_since_last_payment; otherwise, if total_spend >= 5000 it
is "high" when days_since_last_payment > 90 and "medium" otherwise; otherwise
it is "high" when > 180, "medium" when > 90, and "low" otherwise.  Proved as
an equality between `_assess_risk_level` and the rule transcribed from the
claim. -/
theorem C4_risk_level_characterization (engagement_score : ℕ) (total_spend : ℚ)
    (days_since_last_payment : ℤ) :
    Report.assess_risk_level engagement_score total_spend days_since_last_payment =
      specRiskLevel engagement_score total_spend days_since_last_payment := rfl

/-- C6: engagement_status is determined by the first-match-wins cascade of the
claim.  Proved as an equality between `_determine_engagement_status` and the
cascade transcribed from the claim. -/
theorem C6_engagement_status_cascade (engagement_score : ℕ) (days_since_last_payment : ℤ)
    (historical_engagement : String) :
    Report.determine_engagement_status engagement_score days_since_last_payment
        historical_engagement =
      specEngagementStatus engagement_score days_since_last_payment historical_engagement := rfl

/-- C5: for a customer with a defined payment frequency and a last payment,
payment_status is "at_risk" if days_since_last > 2 x frequency, else "overdue"
if days_since_last > 1.5 x frequency, else "on_track"; the at_risk condition
is evaluated first, so a customer satisfying both threshold conditions is
always classified "at_risk". -/
theorem C5_payment_status_thresholds (now last_date : ℤ) (f : ℚ) (days_since_last : ℤ) :
    ((Report.predict_next_payment now (some last_date) (some f) days_since_last).1 =
      if (days_since_last : ℚ) > 2 * f then "at_risk"
      else if (days_since_last : ℚ) > (3/2) * f then "overdue"
      else "on_track")
    ∧ ((days_since_last : ℚ) > 2 * f → (days_since_last : ℚ) > (3/2) * f →
        (Report.predict_next_payment now (some last_date) (some f) days_since_last).1 =
          "at_risk") := by
  constructor
  · show (if (days_since_last : ℚ) > f * 2 then "at_risk"
      else if (days_since_last : ℚ) > f * (3/2) then "overdue"
      else "on_track") = _
    rw [mul_comm f 2, mul_comm f (3/2)]
  · intro h1 _
    show (if (days_since_last : ℚ) > f * 2 then "at_risk"
      else if (days_since_last : ℚ) > f * (3/2) then "overdue"
      else "on_track") = "at_risk"
    rw [if_pos (by rw [mul_comm]; exact h1)]

/-- Witness for C5 at a concrete input: frequency 10, 30 days since the last
payment satisfies both thresholds and is classified "at_risk". -/
theorem C5_payment_status_thresholds_witness :
    ((30 : ℤ) : ℚ) > 2 * (10 : ℚ)
    ∧ (Report.predict_next_payment 40 (some 0) (some 10) 30).1 = "at_risk" :=
  ⟨by norm_num, (C5_payment_status_thresholds 40 0 10 30).2 (by norm_num) (by norm_num)⟩

/-- C7: in the batch disengagement classification, no customer_id appearing in
the recent/engaged set is ever classified disengaged (set difference by
customer_id). -/
theorem C7_disengaged_disjoint_recent (cfg : Analyzer.Config) (df : List Analyzer.CsvRow)
    (current_date : ℤ) (row : Analyzer.CsvRow)
    (h : row ∈ Analyzer.disengaged_customers cfg df current_date) :
    row.customer_id ∉
      (Analyzer.recent_customers cfg df current_date).map Analyzer.CsvRow.customer_id := by
  rw [Analyzer.disengaged_customers, List.mem_filter] at h
  exact of_decide_eq_true h.2

/-- Witness for C7: a concrete dataframe (the spec section 8 scenario: spend
10500, 3 transactions, last payment 100 days before the evaluation date,
3-month recent window, 9-month historical window, threshold 100) in which the
customer is disengaged, hence absent from the recent set. -/
theorem C7_disengaged_disjoint_recent_witness :
    (⟨"cust1", "", "", 10500, 3, 900⟩ : Analyzer.CsvRow) ∈
        Analyzer.disengaged_customers ⟨3, 9, 100⟩ [⟨"cust1", "", "", 10500, 3, 900⟩] 1000
    ∧ (⟨"cust1", "", "", 10500, 3, 900⟩ : Analyzer.CsvRow).customer_id ∉
        (Analyzer.recent_customers ⟨3, 9, 100⟩ [⟨"cust1", "", "", 10500, 3, 900⟩] 1000).map
          Analyzer.CsvRow.customer_id :=
  ⟨by decide, C7_disengaged_disjoint_recent _ _ _ _ (by decide)⟩

/-- Counterexample for C2 as stated: a customer with zero transactions gets the
`CustomerEngagement` dataclass default payment_status "on_track" from the
early return of `_analyze_customer_engagement`, not "unknown". -/
theorem C2_payment_status_cex :
    (Report.analyze_customer_engagement 0 "cust" "" "" []).payment_status = "on_track"
    ∧ (Report.analyze_customer_engagement 0 "cust" "" "" []).payment_status ≠ "unknown" := by
  rw [Report.analyze_customer_engagement_nil]
  exact ⟨rfl, by decide⟩

/-- C2 (amended): for every customer with zero transactions the analysis
returns the default profile — engagement_score 0, payment_status "on_track"
(the dataclass default, not "unknown"), historical_engagement "new", and no
predicted next payment — and, being a total function, never raises. -/
theorem C2_zero_transactions_defaults (now : ℤ) (cid email name : String) :
    (Report.analyze_customer_engagement now cid email name []).engagement_score = 0
    ∧ (Report.analyze_customer_engagement now cid email name []).payment_status = "on_track"
    ∧ (Report.analyze_customer_engagement now cid email name []).historical_engagement = "new"
    ∧ (Report.analyze_customer_engagement now cid email name []).predicted_next_payment = none := by
  rw [Report.analyze_customer_engagement_nil]
  exact ⟨rfl, rfl, rfl, rfl⟩

/-- Counterexample for C3 as stated: a customer with zero transactions (which
has transaction_count < 2) keeps the dataclass default
`payment_frequency_days = 0` — the number zero, not the NaN sentinel. -/
theorem C3_zero_transactions_frequency_cex :
    (Report.analyze_customer_engagement 0 "cust" "" "" []).payment_frequency_days = some 0
    ∧ (Report.analyze_customer_engagement 0 "cust" "" "" []).payment_frequency_days ≠ none := by
  rw [Report.analyze_customer_engagement_nil]
  exact ⟨rfl, by decide⟩

/-- C3 (amended): payment_frequency_days is the NaN sentinel (`none`) exactly
for customers with transaction_count == 1; with zero transactions the early
return keeps the dataclass default, the number 0; and with transaction_count
>= 2 it is the mean of the n-1 consecutive day-gaps of the date-sorted
payment history. -/
theorem C3_payment_frequency_cases (now : ℤ) (cid email name : String) (raw : List Payment) :
    (raw = [] →
      (Report.analyze_customer_engagement now cid email name raw).payment_frequency_days = some 0)
    ∧ (raw.length = 1 →
      (Report.analyze_customer_engagement now cid email name raw).payment_frequency_days = none)
    ∧ (2 ≤ raw.length →
      (Report.analyze_customer_engagement now cid email name raw).payment_frequency_days =
        some (specGapsMean (Report.sortPayments raw))) := by
  refine ⟨?_, ?_, ?_⟩
  · rintro rfl
    rw [Report.analyze_customer_engagement_nil]
  · intro h1
    rcases raw with _ | ⟨p, raw2⟩
    · simp at h1
    · rcases raw2 with _ | ⟨q, t⟩
      · have hl : (Report.sortPayments [p]).getLast? = some p := by
          rw [Report.sortPayments_singleton]
          rfl
        rw [Report.payment_frequency_pipeline now cid email name [p] p hl,
          Report.sortPayments_singleton]
        exact Report.calculate_payment_frequency_none _ (by simp)
      · simp at h1
  · intro h2
    have hne : raw ≠ [] := by
      intro he
      rw [he] at h2
      simp at h2
    obtain ⟨lp, hl⟩ := Report.exists_getLast_sort raw hne
    rw [Report.payment_frequency_pipeline now cid email name raw lp hl]
    exact Report.calculate_payment_frequency_eq _ (by rw [Report.length_sortPayments]; omega)

/-- Witness for C3 (amended) at a concrete two-payment history: the frequency
is the mean of the day-gaps of the sorted history. -/
theorem C3_payment_frequency_cases_witness :
    2 ≤ ([⟨0, 40, "card"⟩, ⟨10, 60, "card"⟩] : List Payment).length
    ∧ (Report.analyze_customer_engagement 20 "cust" "" ""
          [⟨0, 40, "card"⟩, ⟨10, 60, "card"⟩]).payment_frequency_days =
        some (specGapsMean (Report.sortPayments [⟨0, 40, "card"⟩, ⟨10, 60, "card"⟩])) :=
  ⟨by decide, (C3_payment_frequency_cases 20 "cust" "" "" _).2.2 (by decide)⟩

/-- C10: a customer with exactly one payment scores at most 5 in the report
scorer (frequency band 0 since transaction_count < 2, regularity band 0 since
the NaN frequency fails the `payment_frequency > 0` guard, leaving at most
3 monetary + 2 recency points); in particular the score never reaches the
`score >= 7` active rule. -/
theorem C10_single_payment_score_le_five (now : ℤ) (cid email name : String) (p : Payment) :
    (Report.analyze_customer_engagement now cid email name [p]).engagement_score ≤ 5 := by
  have hl : (Report.sortPayments [p]).getLast? = some p := by
    rw [Report.sortPayments_singleton]
    rfl
  rw [Report.engagement_score_pipeline now cid email name [p] p hl,
    Report.sortPayments_singleton]
  rw [Report.calculate_payment_frequency_none [p] (by simp)]
  have h1 : Report.frequency_score ([p] : List Payment).length = 0 := rfl
  have h2 := Report.monetary_score_le (([p] : List Payment).map Payment.amount).sum
  have h3 := Report.recency_score_le (now - p.date)
  have h4 : Report.regularity_band none = 0 := rfl
  unfold Report.calculate_engagement_score
  omega

/-- C8: for every customer with at least 2 payments, historical_engagement is
evaluated in priority order with the dormant rule first: "dormant" if
days_since_last_payment > 3 x overall frequency; else "declining" if both
half-frequencies are defined and second_half_freq > 1.5 x first_half_freq;
else "consistent" if both are defined and the halves differ by at most 20% of
the first; else "irregular" — so a currently-dormant customer is never
labeled "consistent".  Proved as an equality between
`_analyze_historical_engagement` (fed the overall frequency computed from the
full history, as the pipeline does) and the cascade transcribed from the
claim. -/
theorem C8_historical_engagement_priority (payments : List Payment) (days_since_last : ℤ)
    (h : 2 ≤ payments.length) :
    Report.analyze_historical_engagement payments
        (Report.calculate_payment_frequency payments) days_since_last
      = specHistoricalEngagement (specGapsMean payments)
          (Report.calculate_payment_frequency (payments.take (payments.length / 2)))
          (Report.calculate_payment_frequency (payments.drop (payments.length / 2)))
          days_since_last := by
  rw [Report.calculate_payment_frequency_eq payments h]
  unfold Report.analyze_historical_engagement specHistoricalEngagement
  rw [if_neg (by omega)]
  dsimp only
  rw [mul_comm (specGapsMean payments) 3]
  simp only [decide_eq_true_eq]
  rcases h1 : Report.calculate_payment_frequency (payments.take (payments.length / 2)) with _ | fhf
    <;> rcases h2 : Report.calculate_payment_frequency (payments.drop (payments.length / 2)) with _ | shf
    <;> split_ifs with hd
  · rfl
  · rfl
  · rfl
  · rfl
  · rfl
  · rfl
  · rfl
  · dsimp only
    rw [mul_comm fhf (3/2), mul_comm fhf (1/5)]

/-- Witness for C8 at a concrete four-payment history (evenly spaced every 10
days, 5 days since the last payment). -/
theorem C8_historical_engagement_priority_witness :
    2 ≤ ([⟨0, 200, "card"⟩, ⟨10, 200, "card"⟩, ⟨20, 200, "card"⟩,
          ⟨30, 200, "card"⟩] : List Payment).length
    ∧ Report.analyze_historical_engagement
          [⟨0, 200, "card"⟩, ⟨10, 200, "card"⟩, ⟨20, 200, "card"⟩, ⟨30, 200, "card"⟩]
          (Report.calculate_payment_frequency
            [⟨0, 200, "card"⟩, ⟨10, 200, "card"⟩, ⟨20, 200, "card"⟩, ⟨30, 200, "card"⟩]) 5
        = specHistoricalEngagement
            (specGapsMean
              [⟨0, 200, "card"⟩, ⟨10, 200, "card"⟩, ⟨20, 200, "card"⟩, ⟨30, 200, "card"⟩])
            (Report.calculate_payment_frequency
              (([⟨0, 200, "card"⟩, ⟨10, 200, "card"⟩, ⟨20, 200, "card"⟩,
                 ⟨30, 200, "card"⟩] : List Payment).take
                (([⟨0, 200, "card"⟩, ⟨10, 200, "card"⟩, ⟨20, 200, "card"⟩,
                   ⟨30, 200, "card"⟩] : List Payment).length / 2)))
            (Report.calculate_payment_frequency
              (([⟨0, 200, "card"⟩, ⟨10, 200, "card"⟩, ⟨20, 200, "card"⟩,
                 ⟨30, 200, "card"⟩] : List Payment).drop
                (([⟨0, 200, "card"⟩, ⟨10, 200, "card"⟩, ⟨20, 200, "card"⟩,
                   ⟨30, 200, "card"⟩] : List Payment).length / 2)))
            5 :=
  ⟨by decide, C8_historical_engagement_priority _ 5 (by decide)⟩

/-- C9: increasing one transaction's amount, holding everything else and the
evaluation time fixed, never decreases the pipeline's computed total_spend and
never decreases the monetary sub-score contributed to the engagement score,
under either scorer's monetary band. -/
theorem C9_amount_monotonicity (now : ℤ) (cid email name : String)
    (pre post : List Payment) (p : Payment) (a : ℚ) (min_spend_threshold : ℚ)
    (h : p.amount ≤ a) :
    (Report.analyze_customer_engagement now cid email name (pre ++ p :: post)).total_spend ≤
      (Report.analyze_customer_engagement now cid email name
        (pre ++ { p with amount := a } :: post)).total_spend
    ∧ Report.monetary_score
          (Report.analyze_customer_engagement now cid email name (pre ++ p :: post)).total_spend ≤
        Report.monetary_score
          (Report.analyze_customer_engagement now cid email name
            (pre ++ { p with amount := a } :: post)).total_spend
    ∧ Analyzer.monetary_score min_spend_threshold
          (Report.analyze_customer_engagement now cid email name (pre ++ p :: post)).total_spend ≤
        Analyzer.monetary_score min_spend_threshold
          (Report.analyze_customer_engagement now cid email name
            (pre ++ { p with amount := a } :: post)).total_spend := by
  obtain ⟨lp1, hl1⟩ := Report.exists_getLast_sort (pre ++ p :: post) (by simp)
  obtain ⟨lp2, hl2⟩ := Report.exists_getLast_sort (pre ++ { p with amount := a } :: post) (by simp)
  rw [Report.total_spend_pipeline now cid email name _ lp1 hl1,
    Report.total_spend_pipeline now cid email name _ lp2 hl2,
    Report.sum_sortPayments, Report.sum_sortPayments]
  have hsum : ((pre ++ p :: post).map Payment.amount).sum ≤
      ((pre ++ { p with amount := a } :: post).map Payment.amount).sum := by
    simp only [List.map_append, List.map_cons, List.sum_append, List.sum_cons]
    linarith
  exact ⟨hsum, Report.monetary_score_mono hsum, Analyzer.analyzer_monetary_score_mono _ hsum⟩

/-- Witness for C9 at a concrete input: raising a single payment from 100 to
600 with no other payments. -/
theorem C9_amount_monotonicity_witness :
    (⟨0, 100, "card"⟩ : Payment).amount ≤ (600 : ℚ)
    ∧ (Report.analyze_customer_engagement 10 "c" "" ""
          ([] ++ (⟨0, 100, "card"⟩ : Payment) :: [])).total_spend ≤
        (Report.analyze_customer_engagement 10 "c" "" ""
          ([] ++ ({ (⟨0, 100, "card"⟩ : Payment) with amount := 600 }) :: [])).total_spend :=
  ⟨by decide, (C9_amount_monotonicity 10 "c" "" "" [] [] ⟨0, 100, "card"⟩ 600 50 (by decide)).1⟩
